import Mathlib

/-!
Verification development for greatcircledist.c: a command-line tool that
validates four decimal-degree arguments (lat1 lon1 lat2 lon2) and prints two
surface distances in metres, a haversine/local-radius estimate and the result
of Vincenty's inverse iteration on the WGS-84 ellipsoid.

The input validator (main, lines 98-136) only performs rational comparisons
on the parsed values, so it is embedded computably over rationals, with each
parsed argument abstracted as the value returned by strtod together with the
two flags main inspects: whether the whole string was consumed and whether
errno was set to ERANGE.  The geometry (lines 53-96 and 138-156) is embedded
over the real numbers, with the C doubles read as reals and libm functions as
their real counterparts; the unbounded do-while loop of vincenty is modelled
with an explicit fuel parameter.
-/

namespace GreatCircle

/-- Outcome of parsing one command-line argument with strtod (main, lines
108-120): the parsed value, whether the whole argument string was consumed,
and whether errno was set to ERANGE by the parse. -/
structure Arg where
  val : ℚ
  consumed : Bool
  erange : Bool
deriving DecidableEq

/-- EPSILON 1e-12 (line 31), as a rational for the validator side. -/
def EPSILON_Q : ℚ := 1 / 10 ^ 12

/-- equal(a, b) from lines 53-56, at the rational values the validator
compares: fabs(a - b) <= EPSILON. -/
def equalQ (a b : ℚ) : Bool := decide (|a - b| ≤ EPSILON_Q)

/-- Validation of argument number i (0-based) in the loop of main, lines
107-135: whole-string check (exit 2), ERANGE check (exit 3), latitude range
for i = 0, 2 (exit 4), longitude range for i = 1, 3 (exit 5) with the
epsilon-normalization of -180 to +180.  Returns the validated (and possibly
normalized) value in degrees; conversion to radians is a separate step. -/
def checkArg (i : Nat) (x : Arg) : Except Nat ℚ :=
  if x.consumed = false then .error 2
  else if x.erange = true then .error 3
  else if (i = 0 ∨ i = 2) ∧ (x.val < -90 ∨ x.val > 90) then .error 4
  else if i = 1 ∨ i = 3 then
    if x.val < -180 ∨ x.val > 180 then .error 5
    else if equalQ x.val (-180) then .ok 180
    else .ok x.val
  else .ok x.val

/-- The whole validation phase of main: exactly four arguments (argc = 5
counting the program name, line 101), each validated in order with the first
failure deciding the exit code. -/
def validate (args : List Arg) : Except Nat (ℚ × ℚ × ℚ × ℚ) :=
  match args with
  | [a0, a1, a2, a3] =>
    match checkArg 0 a0 with
    | .error c => .error c
    | .ok v0 =>
      match checkArg 1 a1 with
      | .error c => .error c
      | .ok v1 =>
        match checkArg 2 a2 with
        | .error c => .error c
        | .ok v2 =>
          match checkArg 3 a3 with
          | .error c => .error c
          | .ok v3 => .ok (v0, v1, v2, v3)
  | _ => .error 1

/-- The process exit code: the code of the first validation failure, or 0 on
success (line 158). -/
def exitCode (args : List Arg) : Nat :=
  match validate args with
  | .error c => c
  | .ok _ => 0

/-- A parse outcome that sails through every check at position i: fully
consumed, no range error, and value inside the geographic range the position
requires. -/
def ArgValidAt (i : Nat) (x : Arg) : Prop :=
  x.consumed = true ∧ x.erange = false ∧
    ((i = 0 ∨ i = 2) → -90 ≤ x.val ∧ x.val ≤ 90) ∧
    ((i = 1 ∨ i = 3) → -180 ≤ x.val ∧ x.val ≤ 180)

instance (i : Nat) (x : Arg) : Decidable (ArgValidAt i x) := by
  unfold ArgValidAt; infer_instance

noncomputable section

open Real

/-- DEG2RAD (line 30). -/
def DEG2RAD : ℝ := Real.pi / 180

/-- EPSILON 1e-12 (line 31), real-valued side. -/
def EPSILON : ℝ := 1 / 10 ^ 12

/-- RA (line 34): Earth equatorial radius in metres. -/
def RA : ℝ := 6.378137e6

/-- FINV (line 35): inverse flattening of the WGS-84 ellipsoid. -/
def FINV : ℝ := 298.257223563

/-- F (line 38). -/
def F : ℝ := 1 / FINV

/-- F1 (line 39). -/
def F1 : ℝ := 1 - F

/-- F16 (line 40). -/
def F16 : ℝ := F / 16

/-- RB (line 41): Earth polar radius in metres. -/
def RB : ℝ := RA * F1

/-- A2 (line 42). -/
def A2 : ℝ := RA * RA

/-- B2 (line 43). -/
def B2 : ℝ := RB * RB

/-- RF (line 44). -/
def RF : ℝ := (A2 - B2) / B2

/-- LineSegment (lines 48-51): two lat/lon points, four angles.  The C union
lets the validator address the fields positionally; here the validator works
on a 4-tuple of rationals and the algorithms on this record of reals. -/
structure LineSegment where
  lat1 : ℝ
  lon1 : ℝ
  lat2 : ℝ
  lon2 : ℝ

/-- equal(a, b) from lines 53-56 on the real-valued side. -/
def equalR (a b : ℝ) : Prop := |a - b| ≤ EPSILON

instance (a b : ℝ) : Decidable (equalR a b) :=
  inferInstanceAs (Decidable (|a - b| ≤ EPSILON))

/-- C99 atan2(y, x), used at line 79.  The model fixes atan2(0, 0) = 0 and
ignores signed zeros; no theorem below depends on unfolding it. -/
def atan2 (y x : ℝ) : ℝ :=
  if 0 < x then Real.arctan (y / x)
  else if x < 0 then
    if 0 ≤ y then Real.arctan (y / x) + Real.pi
    else Real.arctan (y / x) - Real.pi
  else
    if 0 < y then Real.pi / 2
    else if y < 0 then -(Real.pi / 2)
    else 0

/-- The values computed by one pass of the do-while body of vincenty
(lines 68-85), as functions of the reduced latitudes U1 and U2, the
longitude difference L and the current iterate l.  lnew is the updated l;
ss, cs, s, c2a and c2sm are the values the variables of those names hold at
the end of the pass. -/
structure VStep where
  lnew : ℝ
  ss : ℝ
  cs : ℝ
  s : ℝ
  c2a : ℝ
  c2sm : ℝ

/-- One pass of the do-while body of vincenty (lines 68-85), transcribed
statement by statement. -/
def vstep (U1 U2 L l : ℝ) : VStep :=
  let sU1 := Real.sin U1
  let cU1 := Real.cos U1
  let sU2 := Real.sin U2
  let cU2 := Real.cos U2
  let sl := Real.sin l
  let cl := Real.cos l
  let sU12 := sU1 * sU2
  let cU12 := cU1 * cU2
  let p := cU2 * sl
  let q := cU1 * sU2 - sU1 * cU2 * cl
  let ss := Real.sqrt (p * p + q * q)
  let cs := sU12 + cU12 * cl
  let s := atan2 ss cs
  let sa := cU12 * sl / ss
  let c2a := 1 - sa * sa
  let c2sm := Real.cos s - 2 * sU12 / c2a
  let C := F16 * c2a * (4 + F * (4 - 3 * c2a))
  ⟨L + (1 - C) * F * sa * (s + C * ss * (c2sm + C * cs * (-1 + 2 * c2sm * c2sm))),
   ss, cs, s, c2a, c2sm⟩

/-- The do-while loop of vincenty (lines 68-85): run one pass from the
current iterate l; stop when the new l equals the old one within EPSILON,
otherwise continue with the new l.  The C loop has no iteration bound; fuel
bounds the model, and the claims proved below hold for every fuel. -/
def vloop (U1 U2 L : ℝ) : Nat → ℝ → VStep
  | 0, l => vstep U1 U2 L l
  | fuel + 1, l =>
    let r := vstep U1 U2 L l
    if equalR r.lnew l then r else vloop U1 U2 L fuel r.lnew

/-- The straight-line tail of vincenty after the loop (lines 86-95),
computing the ellipsoidal correction from the final loop values. -/
def vfinish (r : VStep) : ℝ :=
  let u2 := r.c2a * RF
  let t := Real.sqrt (1 + u2)
  let k1 := (t - 1) / (t + 1)
  let k24 := 0.25 * k1 * k1
  let A := (1 + k24) / (1 - k1)
  let B := k1 * (1 - 1.5 * k24)
  let ds := B * r.ss * (r.c2sm + B / 4 * (r.cs * (-1 + 2 * r.c2sm * r.c2sm)
    - B / 6 * r.c2sm * (-3 + 4 * r.ss * r.ss) * (-3 + 4 * r.c2sm * r.c2sm)))
  RB * A * (r.s - ds)

/-- vincenty (lines 59-96): short-circuit to 0 when the two points are equal
within EPSILON component-wise; otherwise reduced latitudes, the iteration,
and the ellipsoidal correction. -/
def vincenty (fuel : Nat) (a : LineSegment) : ℝ :=
  if equalR a.lat1 a.lat2 ∧ equalR a.lon1 a.lon2 then 0
  else
    let U1 := Real.arctan (F1 * Real.tan a.lat1)
    let U2 := Real.arctan (F1 * Real.tan a.lat2)
    let L := a.lon2 - a.lon1
    vfinish (vloop U1 U2 L fuel L)

/-- The haversine/local-radius computation of main (lines 138-154),
transcribed statement by statement.  Note: main performs no epsilon
short-circuit before this computation. -/
def haversine (a : LineSegment) : ℝ :=
  let avglat := (a.lat1 + a.lat2) / 2
  let s := Real.sin avglat
  let c := Real.cos avglat
  let rs := B2 * s * s
  let rc := A2 * c * c
  let slat := Real.sin ((a.lat2 - a.lat1) / 2)
  let slon := Real.sin ((a.lon2 - a.lon1) / 2)
  2 * Real.sqrt ((B2 * rs + A2 * rc) / (rs + rc))
    * Real.arcsin (Real.sqrt (slat * slat + Real.cos a.lat1 * Real.cos a.lat2 * (slon * slon)))

/-- Modelled from the spec (section 4.2 and the claim text of C6): the
local-diameter times central-angle formula written exactly as the spec
states it, to be compared with the transcription of the code. -/
def haversineSpecFormula (a : LineSegment) : ℝ :=
  let phim := (a.lat1 + a.lat2) / 2
  let s := Real.sin phim
  let c := Real.cos phim
  let rs := RB ^ 2 * s ^ 2
  let rc := RA ^ 2 * c ^ 2
  let D := 2 * Real.sqrt ((RB ^ 2 * rs + RA ^ 2 * rc) / (rs + rc))
  let centralAngle := Real.arcsin (Real.sqrt (Real.sin ((a.lat2 - a.lat1) / 2) ^ 2
    + Real.cos a.lat1 * Real.cos a.lat2 * Real.sin ((a.lon2 - a.lon1) / 2) ^ 2))
  D * centralAngle

/-- Degrees-to-radians conversion of the four validated values (line 135). -/
def toSegment (v : ℚ × ℚ × ℚ × ℚ) : LineSegment :=
  ⟨(v.1 : ℝ) * DEG2RAD, (v.2.1 : ℝ) * DEG2RAD, (v.2.2.1 : ℝ) * DEG2RAD, (v.2.2.2 : ℝ) * DEG2RAD⟩

/-- The observable outcome of one program invocation: a failing exit code
from validation, or the two printed distances (lines 155-156) and exit
code 0. -/
def programResult (fuel : Nat) (args : List Arg) : Except Nat (ℝ × ℝ) :=
  match validate args with
  | .error c => .error c
  | .ok v => .ok (haversine (toSegment v), vincenty fuel (toSegment v))

/-- The equatorial input lat1 = 0, lon1 = 0, lat2 = 0, lon2 = 90 degrees,
after conversion to radians. -/
def equator90 : LineSegment := ⟨0, 0, 0, Real.pi / 2⟩

end

/-! ### Validator lemmas -/

lemma checkArg_ok0 {x : Arg} (h : ArgValidAt 0 x) : checkArg 0 x = .ok x.val := by
  obtain ⟨hc, he, hlat, -⟩ := h
  have hr := hlat (Or.inl rfl)
  unfold checkArg
  rw [if_neg (by rw [hc]; simp), if_neg (by rw [he]; simp),
      if_neg (fun hbad => by rcases hbad.2 with hv | hv <;> linarith [hr.1, hr.2]),
      if_neg (by simp)]

lemma checkArg_ok2 {x : Arg} (h : ArgValidAt 2 x) : checkArg 2 x = .ok x.val := by
  obtain ⟨hc, he, hlat, -⟩ := h
  have hr := hlat (Or.inr rfl)
  unfold checkArg
  rw [if_neg (by rw [hc]; simp), if_neg (by rw [he]; simp),
      if_neg (fun hbad => by rcases hbad.2 with hv | hv <;> linarith [hr.1, hr.2]),
      if_neg (by simp)]

lemma checkArg_ok1 {x : Arg} (h : ArgValidAt 1 x) : ∃ v, checkArg 1 x = .ok v := by
  obtain ⟨hc, he, -, hlon⟩ := h
  have hr := hlon (Or.inl rfl)
  unfold checkArg
  rw [if_neg (by rw [hc]; simp), if_neg (by rw [he]; simp),
      if_neg (fun hbad => by rcases hbad.1 with h | h <;> omega),
      if_pos (Or.inl rfl),
      if_neg (fun hbad => by rcases hbad with hv | hv <;> linarith [hr.1, hr.2])]
  by_cases hq : equalQ x.val (-180) = true
  · rw [if_pos hq]; exact ⟨180, rfl⟩
  · rw [if_neg hq]; exact ⟨x.val, rfl⟩

lemma checkArg_ok3 {x : Arg} (h : ArgValidAt 3 x) : ∃ v, checkArg 3 x = .ok v := by
  obtain ⟨hc, he, -, hlon⟩ := h
  have hr := hlon (Or.inr rfl)
  unfold checkArg
  rw [if_neg (by rw [hc]; simp), if_neg (by rw [he]; simp),
      if_neg (fun hbad => by rcases hbad.1 with h | h <;> omega),
      if_pos (Or.inr rfl),
      if_neg (fun hbad => by rcases hbad with hv | hv <;> linarith [hr.1, hr.2])]
  by_cases hq : equalQ x.val (-180) = true
  · rw [if_pos hq]; exact ⟨180, rfl⟩
  · rw [if_neg hq]; exact ⟨x.val, rfl⟩

lemma checkArg_lon_near180 {i : Nat} (hi : i = 1 ∨ i = 3) {x : Arg} (hc : x.consumed = true)
    (he : x.erange = false) (h1 : -180 ≤ x.val) (h2 : x.val ≤ -180 + EPSILON_Q) :
    checkArg i x = .ok 180 := by
  have hε : (0 : ℚ) < EPSILON_Q := by norm_num [EPSILON_Q]
  have hε360 : EPSILON_Q < 360 := by norm_num [EPSILON_Q]
  have heq : equalQ x.val (-180) = true := by
    simp only [equalQ, decide_eq_true_eq, sub_neg_eq_add, abs_le]
    constructor <;> linarith
  unfold checkArg
  rw [if_neg (by rw [hc]; simp), if_neg (by rw [he]; simp),
      if_neg (fun hbad => by rcases hi with rfl | rfl <;> rcases hbad.1 with h | h <;> omega),
      if_pos hi, if_neg (by rintro (h | h) <;> linarith), if_pos heq]

lemma checkArg_lon_plain {i : Nat} (hi : i = 1 ∨ i = 3) {x : Arg} (hc : x.consumed = true)
    (he : x.erange = false) (h1 : -180 ≤ x.val) (h2 : x.val ≤ 180)
    (hfar : EPSILON_Q < |x.val - (-180)|) :
    checkArg i x = .ok x.val := by
  have heq : ¬(equalQ x.val (-180) = true) := by
    simp only [equalQ, decide_eq_true_eq, not_le]
    exact hfar
  unfold checkArg
  rw [if_neg (by rw [hc]; simp), if_neg (by rw [he]; simp),
      if_neg (fun hbad => by rcases hi with rfl | rfl <;> rcases hbad.1 with h | h <;> omega),
      if_pos hi, if_neg (by rintro (h | h) <;> linarith), if_neg heq]

lemma okArg_valid (i : Nat) (v : ℚ) (h1 : -90 ≤ v) (h2 : v ≤ 90) :
    ArgValidAt i ⟨v, true, false⟩ :=
  ⟨rfl, rfl, fun _ => ⟨h1, h2⟩, fun _ => ⟨by linarith, by linarith⟩⟩

lemma checkArg_err2 (i : Nat) {x : Arg} (h : x.consumed = false) : checkArg i x = .error 2 := by
  unfold checkArg; rw [if_pos h]

lemma checkArg_err3 (i : Nat) {x : Arg} (hc : x.consumed = true) (he : x.erange = true) :
    checkArg i x = .error 3 := by
  unfold checkArg; rw [if_neg (by rw [hc]; simp), if_pos he]

lemma checkArg_err4 {i : Nat} {x : Arg} (hi : i = 0 ∨ i = 2) (hc : x.consumed = true)
    (he : x.erange = false) (hv : x.val < -90 ∨ x.val > 90) : checkArg i x = .error 4 := by
  unfold checkArg
  rw [if_neg (by rw [hc]; simp), if_neg (by rw [he]; simp), if_pos ⟨hi, hv⟩]

lemma checkArg_err5 {i : Nat} {x : Arg} (hi : i = 1 ∨ i = 3) (hc : x.consumed = true)
    (he : x.erange = false) (hv : x.val < -180 ∨ x.val > 180) : checkArg i x = .error 5 := by
  unfold checkArg
  rw [if_neg (by rw [hc]; simp), if_neg (by rw [he]; simp),
      if_neg (fun hbad => by rcases hi with rfl | rfl <;> rcases hbad.1 with h | h <;> omega),
      if_pos hi, if_pos hv]

lemma validate_len {args : List Arg} (h : args.length ≠ 4) : validate args = .error 1 := by
  match args with
  | [] => rfl
  | [_] => rfl
  | [_, _] => rfl
  | [_, _, _] => rfl
  | [_, _, _, _] => simp at h
  | _ :: _ :: _ :: _ :: _ :: _ => rfl

/-- Claim C1: an argument count other than four exits with code 1 with no
distance computed; a not fully consumed argument exits with code 2; an
argument whose parse reports ERANGE exits with code 3; a latitude outside
[-90, 90] exits with code 4; a longitude outside [-180, 180] exits with
code 5 -- each failure code applying to the first argument that fails, in
the order the code performs the checks -- and an invocation all of whose
arguments pass every check exits with code 0. -/
theorem exit_codes :
    (∀ (fuel : Nat) (args : List Arg), args.length ≠ 4 →
      exitCode args = 1 ∧ programResult fuel args = .error 1) ∧
    (∀ a0 a1 a2 a3 : Arg, ArgValidAt 0 a0 → ArgValidAt 1 a1 → ArgValidAt 2 a2 →
      ArgValidAt 3 a3 → exitCode [a0, a1, a2, a3] = 0) ∧
    (∀ a0 a1 a2 a3 : Arg,
      (a0.consumed = false → exitCode [a0, a1, a2, a3] = 2) ∧
      (a0.consumed = true → a0.erange = true → exitCode [a0, a1, a2, a3] = 3) ∧
      (a0.consumed = true → a0.erange = false → (a0.val < -90 ∨ a0.val > 90) →
        exitCode [a0, a1, a2, a3] = 4) ∧
      (ArgValidAt 0 a0 → a1.consumed = false → exitCode [a0, a1, a2, a3] = 2) ∧
      (ArgValidAt 0 a0 → a1.consumed = true → a1.erange = true →
        exitCode [a0, a1, a2, a3] = 3) ∧
      (ArgValidAt 0 a0 → a1.consumed = true → a1.erange = false →
        (a1.val < -180 ∨ a1.val > 180) → exitCode [a0, a1, a2, a3] = 5) ∧
      (ArgValidAt 0 a0 → ArgValidAt 1 a1 → a2.consumed = false →
        exitCode [a0, a1, a2, a3] = 2) ∧
      (ArgValidAt 0 a0 → ArgValidAt 1 a1 → a2.consumed = true → a2.erange = true →
        exitCode [a0, a1, a2, a3] = 3) ∧
      (ArgValidAt 0 a0 → ArgValidAt 1 a1 → a2.consumed = true → a2.erange = false →
        (a2.val < -90 ∨ a2.val > 90) → exitCode [a0, a1, a2, a3] = 4) ∧
      (ArgValidAt 0 a0 → ArgValidAt 1 a1 → ArgValidAt 2 a2 → a3.consumed = false →
        exitCode [a0, a1, a2, a3] = 2) ∧
      (ArgValidAt 0 a0 → ArgValidAt 1 a1 → ArgValidAt 2 a2 → a3.consumed = true →
        a3.erange = true → exitCode [a0, a1, a2, a3] = 3) ∧
      (ArgValidAt 0 a0 → ArgValidAt 1 a1 → ArgValidAt 2 a2 → a3.consumed = true →
        a3.erange = false → (a3.val < -180 ∨ a3.val > 180) →
        exitCode [a0, a1, a2, a3] = 5)) := by
  refine ⟨?_, ?_, ?_⟩
  · intro fuel args h
    exact ⟨by simp [exitCode, validate_len h], by simp [programResult, validate_len h]⟩
  · intro a0 a1 a2 a3 h0 h1 h2 h3
    obtain ⟨v1, e1⟩ := checkArg_ok1 h1
    obtain ⟨v3, e3⟩ := checkArg_ok3 h3
    simp [exitCode, validate, checkArg_ok0 h0, e1, checkArg_ok2 h2, e3]
  · intro a0 a1 a2 a3
    refine ⟨?_, ?_, ?_, ?_, ?_, ?_, ?_, ?_, ?_, ?_, ?_, ?_⟩
    · intro h
      simp [exitCode, validate, checkArg_err2 0 h]
    · intro hc he
      simp [exitCode, validate, checkArg_err3 0 hc he]
    · intro hc he hv
      simp [exitCode, validate, checkArg_err4 (Or.inl rfl) hc he hv]
    · intro h0 h
      simp [exitCode, validate, checkArg_ok0 h0, checkArg_err2 1 h]
    · intro h0 hc he
      simp [exitCode, validate, checkArg_ok0 h0, checkArg_err3 1 hc he]
    · intro h0 hc he hv
      simp [exitCode, validate, checkArg_ok0 h0, checkArg_err5 (Or.inl rfl) hc he hv]
    · intro h0 h1 h
      obtain ⟨v1, e1⟩ := checkArg_ok1 h1
      simp [exitCode, validate, checkArg_ok0 h0, e1, checkArg_err2 2 h]
    · intro h0 h1 hc he
      obtain ⟨v1, e1⟩ := checkArg_ok1 h1
      simp [exitCode, validate, checkArg_ok0 h0, e1, checkArg_err3 2 hc he]
    · intro h0 h1 hc he hv
      obtain ⟨v1, e1⟩ := checkArg_ok1 h1
      simp [exitCode, validate, checkArg_ok0 h0, e1, checkArg_err4 (Or.inr rfl) hc he hv]
    · intro h0 h1 h2 h
      obtain ⟨v1, e1⟩ := checkArg_ok1 h1
      simp [exitCode, validate, checkArg_ok0 h0, e1, checkArg_ok2 h2, checkArg_err2 3 h]
    · intro h0 h1 h2 hc he
      obtain ⟨v1, e1⟩ := checkArg_ok1 h1
      simp [exitCode, validate, checkArg_ok0 h0, e1, checkArg_ok2 h2, checkArg_err3 3 hc he]
    · intro h0 h1 h2 hc he hv
      obtain ⟨v1, e1⟩ := checkArg_ok1 h1
      simp [exitCode, validate, checkArg_ok0 h0, e1, checkArg_ok2 h2,
        checkArg_err5 (Or.inr rfl) hc he hv]

/-- Concrete instances of every case of the exit-code theorem. -/
theorem exit_codes_witness :
    exitCode [] = 1 ∧
    exitCode [⟨0, true, false⟩, ⟨0, true, false⟩, ⟨0, true, false⟩, ⟨0, true, false⟩] = 0 ∧
    exitCode [⟨0, false, false⟩, ⟨0, true, false⟩, ⟨0, true, false⟩, ⟨0, true, false⟩] = 2 ∧
    exitCode [⟨0, true, false⟩, ⟨0, true, true⟩, ⟨0, true, false⟩, ⟨0, true, false⟩] = 3 ∧
    exitCode [⟨0, true, false⟩, ⟨0, true, false⟩, ⟨91, true, false⟩, ⟨0, true, false⟩] = 4 ∧
    exitCode [⟨0, true, false⟩, ⟨0, true, false⟩, ⟨0, true, false⟩, ⟨181, true, false⟩] = 5 := by
  obtain ⟨p1, p2, p3⟩ := exit_codes
  refine ⟨(p1 0 [] (by decide)).1,
    p2 _ _ _ _ (by decide) (by decide) (by decide) (by decide), ?_, ?_, ?_, ?_⟩
  · obtain ⟨c1, -⟩ := p3 ⟨0, false, false⟩ ⟨0, true, false⟩ ⟨0, true, false⟩ ⟨0, true, false⟩
    exact c1 rfl
  · obtain ⟨-, -, -, -, c5, -⟩ := p3 ⟨0, true, false⟩ ⟨0, true, true⟩ ⟨0, true, false⟩
      ⟨0, true, false⟩
    exact c5 (by decide) rfl rfl
  · obtain ⟨-, -, -, -, -, -, -, -, c9, -⟩ := p3 ⟨0, true, false⟩ ⟨0, true, false⟩
      ⟨91, true, false⟩ ⟨0, true, false⟩
    exact c9 (by decide) (by decide) rfl rfl (by decide)
  · obtain ⟨-, -, -, -, -, -, -, -, -, -, -, c12⟩ := p3 ⟨0, true, false⟩ ⟨0, true, false⟩
      ⟨0, true, false⟩ ⟨181, true, false⟩
    exact c12 (by decide) (by decide) (by decide) rfl rfl (by decide)

/-- Claim C8: the boundary values lat = +-90 and lon = +-180 pass
validation, and an invocation with a longitude argument of exactly -180
validates to the same result as the identical invocation with +180 in its
place, hence computes the very same distances. -/
theorem boundary_and_neg180 :
    exitCode [⟨90, true, false⟩, ⟨180, true, false⟩, ⟨-90, true, false⟩, ⟨-180, true, false⟩]
      = 0 ∧
    (∀ a0 a1 a2 a3 : Arg, a1.val = -180 →
      validate [a0, a1, a2, a3] = validate [a0, ⟨180, a1.consumed, a1.erange⟩, a2, a3]) ∧
    (∀ a0 a1 a2 a3 : Arg, a3.val = -180 →
      validate [a0, a1, a2, a3] = validate [a0, a1, a2, ⟨180, a3.consumed, a3.erange⟩]) := by
  have hfar : EPSILON_Q < |(180 : ℚ) - (-180)| := by
    rw [show ((180 : ℚ) - (-180)) = 360 by norm_num,
        abs_of_nonneg (by norm_num : (0 : ℚ) ≤ 360)]
    norm_num [EPSILON_Q]
  refine ⟨?_, ?_, ?_⟩
  · have e0 : checkArg 0 ⟨90, true, false⟩ = .ok 90 :=
      checkArg_ok0 (okArg_valid 0 90 (by norm_num) (by norm_num))
    have e1 : checkArg 1 ⟨180, true, false⟩ = .ok 180 :=
      checkArg_lon_plain (Or.inl rfl) rfl rfl (by norm_num) (by norm_num) hfar
    have e2 : checkArg 2 ⟨-90, true, false⟩ = .ok (-90) :=
      checkArg_ok2 (okArg_valid 2 (-90) (by norm_num) (by norm_num))
    have e3 : checkArg 3 ⟨-180, true, false⟩ = .ok 180 :=
      checkArg_lon_near180 (Or.inr rfl) rfl rfl (by norm_num) (by norm_num [EPSILON_Q])
    simp only [exitCode, validate, e0, e1, e2, e3]
  · intro a0 a1 a2 a3 hv
    obtain ⟨v, c, e⟩ := a1
    simp only at hv
    subst hv
    have h : checkArg 1 ⟨-180, c, e⟩ = checkArg 1 ⟨180, c, e⟩ := by
      cases c
      · rw [@checkArg_err2 1 ⟨-180, false, e⟩ rfl, @checkArg_err2 1 ⟨180, false, e⟩ rfl]
      · cases e
        · have hL := @checkArg_lon_near180 1 (Or.inl rfl) ⟨-180, true, false⟩ rfl rfl
            (by norm_num) (by norm_num [EPSILON_Q])
          have hR := @checkArg_lon_plain 1 (Or.inl rfl) ⟨180, true, false⟩ rfl rfl
            (by norm_num) (by norm_num) hfar
          rw [hL, hR]
        · rw [@checkArg_err3 1 ⟨-180, true, true⟩ rfl rfl, @checkArg_err3 1 ⟨180, true, true⟩ rfl rfl]
    simp only [validate, h]
  · intro a0 a1 a2 a3 hv
    obtain ⟨v, c, e⟩ := a3
    simp only at hv
    subst hv
    have h : checkArg 3 ⟨-180, c, e⟩ = checkArg 3 ⟨180, c, e⟩ := by
      cases c
      · rw [@checkArg_err2 3 ⟨-180, false, e⟩ rfl, @checkArg_err2 3 ⟨180, false, e⟩ rfl]
      · cases e
        · have hL := @checkArg_lon_near180 3 (Or.inr rfl) ⟨-180, true, false⟩ rfl rfl
            (by norm_num) (by norm_num [EPSILON_Q])
          have hR := @checkArg_lon_plain 3 (Or.inr rfl) ⟨180, true, false⟩ rfl rfl
            (by norm_num) (by norm_num) hfar
          rw [hL, hR]
        · rw [@checkArg_err3 3 ⟨-180, true, true⟩ rfl rfl, @checkArg_err3 3 ⟨180, true, true⟩ rfl rfl]
    simp only [validate, h]

/-- A concrete -180 longitude invocation validating identically to its +180
counterpart. -/
theorem boundary_and_neg180_witness :
    validate [⟨10, true, false⟩, ⟨-180, true, false⟩, ⟨20, true, false⟩, ⟨30, true, false⟩]
      = validate [⟨10, true, false⟩, ⟨180, true, false⟩, ⟨20, true, false⟩, ⟨30, true, false⟩] :=
  boundary_and_neg180.2.1 ⟨10, true, false⟩ ⟨-180, true, false⟩ ⟨20, true, false⟩
    ⟨30, true, false⟩ rfl

/-- Claim C9, counterexample: the parsed longitude -180 - 1e-13 lies within
1e-12 of -180, yet the program exits with code 5 instead of replacing it by
+180 (the same invocation with +180 exits 0). -/
theorem neg180_low_side_cex :
    |(-180 - 1 / 10 ^ 13 : ℚ) - (-180)| ≤ EPSILON_Q ∧
    exitCode [⟨0, true, false⟩, ⟨-180 - 1 / 10 ^ 13, true, false⟩, ⟨0, true, false⟩,
      ⟨0, true, false⟩] = 5 ∧
    exitCode [⟨0, true, false⟩, ⟨180, true, false⟩, ⟨0, true, false⟩, ⟨0, true, false⟩] = 0 := by
  have e0 : checkArg 0 ⟨0, true, false⟩ = .ok 0 :=
    checkArg_ok0 (okArg_valid 0 0 (by norm_num) (by norm_num))
  have e2 : checkArg 2 ⟨0, true, false⟩ = .ok 0 :=
    checkArg_ok2 (okArg_valid 2 0 (by norm_num) (by norm_num))
  have hfar0 : EPSILON_Q < |(0 : ℚ) - (-180)| := by
    rw [show ((0 : ℚ) - (-180)) = 180 by norm_num,
        abs_of_nonneg (by norm_num : (0 : ℚ) ≤ 180)]
    norm_num [EPSILON_Q]
  refine ⟨?_, ?_, ?_⟩
  · rw [show ((-180 - 1 / 10 ^ 13 : ℚ) - (-180)) = -(1 / 10 ^ 13) by ring, abs_neg,
        abs_of_nonneg (by norm_num : (0 : ℚ) ≤ 1 / 10 ^ 13)]
    norm_num [EPSILON_Q]
  · have e1 : checkArg 1 ⟨-180 - 1 / 10 ^ 13, true, false⟩ = .error 5 :=
      checkArg_err5 (Or.inl rfl) rfl rfl (Or.inl (by norm_num))
    simp only [exitCode, validate, e0, e1]
  · have hfar : EPSILON_Q < |(180 : ℚ) - (-180)| := by
      rw [show ((180 : ℚ) - (-180)) = 360 by norm_num,
          abs_of_nonneg (by norm_num : (0 : ℚ) ≤ 360)]
      norm_num [EPSILON_Q]
    have e1 : checkArg 1 ⟨180, true, false⟩ = .ok 180 :=
      checkArg_lon_plain (Or.inl rfl) rfl rfl (by norm_num) (by norm_num) hfar
    have e3 : checkArg 3 ⟨0, true, false⟩ = .ok 0 :=
      checkArg_lon_plain (Or.inr rfl) rfl rfl (by norm_num) (by norm_num) hfar0
    simp only [exitCode, validate, e0, e1, e2, e3]

/-- Claim C9, amended: a longitude argument that passes the range check and
whose parsed value lies within 1e-12 of -180 -- that is, a value in
[-180, -180 + 1e-12] -- is replaced by +180; parsed values below -180 are
rejected with exit code 5 even when they are within 1e-12 of -180. -/
theorem neg180_epsilon_normalized (x : Arg) (hc : x.consumed = true) (he : x.erange = false)
    (h1 : -180 ≤ x.val) (h2 : x.val ≤ -180 + EPSILON_Q) :
    checkArg 1 x = .ok 180 ∧ checkArg 3 x = .ok 180 :=
  ⟨checkArg_lon_near180 (Or.inl rfl) hc he h1 h2,
   checkArg_lon_near180 (Or.inr rfl) hc he h1 h2⟩

/-- A longitude just above -180 and within epsilon of it, normalized to
+180 in both longitude positions. -/
theorem neg180_epsilon_normalized_witness :
    checkArg 1 ⟨-180 + 1 / 10 ^ 13, true, false⟩ = .ok 180 ∧
    checkArg 3 ⟨-180 + 1 / 10 ^ 13, true, false⟩ = .ok 180 :=
  neg180_epsilon_normalized ⟨-180 + 1 / 10 ^ 13, true, false⟩ rfl rfl (by norm_num)
    (by norm_num [EPSILON_Q])

/-- Claim C10: a first argument whose parse reports ERANGE is rejected with
exit code 3 even though its parsed value lies inside the latitude range, as
happens when a tiny literal like 1e-400 underflows: the errno check does not
look at the value at all.  (The code checks full consumption before errno,
so the argument is taken fully consumed.) -/
theorem erange_exit3 (v : ℚ) (_h1 : -90 ≤ v) (_h2 : v ≤ 90) (a1 a2 a3 : Arg) :
    exitCode [⟨v, true, true⟩, a1, a2, a3] = 3 := by
  have h := @checkArg_err3 0 ⟨v, true, true⟩ rfl rfl
  simp [exitCode, validate, h]

/-- An underflowed-to-zero parse with ERANGE set, rejected with code 3. -/
theorem erange_exit3_witness :
    exitCode [⟨0, true, true⟩, ⟨0, true, false⟩, ⟨0, true, false⟩, ⟨0, true, false⟩] = 3 :=
  erange_exit3 0 (by norm_num) (by norm_num) ⟨0, true, false⟩ ⟨0, true, false⟩ ⟨0, true, false⟩

/-! ### Geometry lemmas -/

lemma equalR_self (x : ℝ) : equalR x x := by
  simp only [equalR, sub_self, abs_zero, EPSILON]
  norm_num

lemma A2_pos : (0 : ℝ) < A2 := by unfold A2 RA; norm_num

lemma F1_pos : (0 : ℝ) < F1 := by unfold F1 F FINV; norm_num

lemma RB_pos : (0 : ℝ) < RB := by
  unfold RB
  exact mul_pos (by unfold RA; norm_num) F1_pos

lemma B2_pos : (0 : ℝ) < B2 := by
  unfold B2
  exact mul_pos RB_pos RB_pos

lemma arctan_F1_tan_zero : Real.arctan (F1 * Real.tan 0) = 0 := by
  rw [Real.tan_zero, mul_zero, Real.arctan_zero]

/-- Claim C4: for any point P, both algorithms return exactly 0 on the pair
(P, P): the Vincenty solver short-circuits on epsilon-equal inputs, and the
haversine formula itself evaluates to 0 there. -/
theorem distance_identity (lat lon : ℝ) (fuel : Nat) :
    haversine ⟨lat, lon, lat, lon⟩ = 0 ∧ vincenty fuel ⟨lat, lon, lat, lon⟩ = 0 := by
  constructor
  · simp [haversine, sub_self, zero_div, Real.sin_zero, Real.sqrt_zero, Real.arcsin_zero,
      mul_zero, zero_mul, add_zero, zero_add]
  · have h : equalR lat lat ∧ equalR lon lon := ⟨equalR_self lat, equalR_self lon⟩
    simp only [vincenty]
    rw [if_pos h]

/-- Claim C6: the haversine/local-radius output of main is exactly the
spec formula D times the inverse-haversine central angle. -/
theorem haversine_eq_spec_formula (a : LineSegment) :
    haversine a = haversineSpecFormula a := by
  simp only [haversine, haversineSpecFormula, A2, B2]
  congr 1
  · congr 1
    congr 1
    ring
  · congr 1
    congr 1
    ring

/-- Claim C7, counterexample: the two points 0, 0 and 0, 1e-13 radians are
equal within EPSILON component-wise, yet the haversine computation of main
returns a nonzero value: main has no epsilon short-circuit in front of the
haversine formula. -/
theorem haversine_no_shortcircuit_cex :
    equalR 0 0 ∧ equalR 0 (1 / 10 ^ 13) ∧ haversine ⟨0, 0, 0, 1 / 10 ^ 13⟩ ≠ 0 := by
  refine ⟨equalR_self 0, ?_, ?_⟩
  · simp only [equalR, EPSILON]
    rw [show (0 : ℝ) - 1 / 10 ^ 13 = -(1 / 10 ^ 13) by ring, abs_neg,
        abs_of_nonneg (by norm_num : (0 : ℝ) ≤ 1 / 10 ^ 13)]
    norm_num
  · have hx : (0 : ℝ) < 1 / 10 ^ 13 / 2 := by norm_num
    have hxpi : (1 : ℝ) / 10 ^ 13 / 2 < Real.pi := by
      have h3 : (1 : ℝ) / 10 ^ 13 / 2 < 3 := by norm_num
      linarith [Real.pi_gt_three]
    have hs : 0 < Real.sin (1 / 10 ^ 13 / 2) := Real.sin_pos_of_pos_of_lt_pi hx hxpi
    unfold haversine
    dsimp only
    simp only [zero_add, zero_div, sub_zero, zero_sub, Real.sin_zero, Real.cos_zero,
      mul_zero, zero_mul, mul_one, one_mul, add_zero]
    apply ne_of_gt
    apply mul_pos
    · exact mul_pos two_pos
        (Real.sqrt_pos.mpr (div_pos (mul_pos A2_pos A2_pos) A2_pos))
    · exact Real.arcsin_pos.mpr (Real.sqrt_pos.mpr (mul_pos hs hs))

/-- Claim C7, amended: main computes the haversine formula directly with no
epsilon short-circuit; exactly identical coordinates still give 0 through
the formula, and the local-radius denominator rs + rc is strictly positive
for every input, so the absent short-circuit never protects against a
division by zero. -/
theorem haversine_direct_formula :
    (∀ lat lon : ℝ, haversine ⟨lat, lon, lat, lon⟩ = 0) ∧
    (∀ a : LineSegment,
      0 < B2 * Real.sin ((a.lat1 + a.lat2) / 2) * Real.sin ((a.lat1 + a.lat2) / 2)
        + A2 * Real.cos ((a.lat1 + a.lat2) / 2) * Real.cos ((a.lat1 + a.lat2) / 2)) := by
  constructor
  · intro lat lon
    simp [haversine, sub_self, zero_div, Real.sin_zero, Real.sqrt_zero, Real.arcsin_zero,
      mul_zero, zero_mul, add_zero, zero_add]
  · intro a
    set φ := (a.lat1 + a.lat2) / 2 with hφ
    by_cases hsin : Real.sin φ = 0
    · have h := Real.sin_sq_add_cos_sq φ
      rw [hsin] at h
      have hc2 : Real.cos φ * Real.cos φ = 1 := by linear_combination h
      rw [hsin]
      simp only [mul_zero, zero_mul, zero_add]
      rw [mul_assoc, hc2, mul_one]
      exact A2_pos
    · have h1 : 0 < B2 * Real.sin φ * Real.sin φ := by
        rw [mul_assoc]
        exact mul_pos B2_pos (mul_self_pos.mpr hsin)
      have h2 : 0 ≤ A2 * Real.cos φ * Real.cos φ := by
        rw [mul_assoc]
        exact mul_nonneg A2_pos.le (mul_self_nonneg _)
      linarith

/-- Claim C2: on the equatorial segment from 0, 0 to 0, 90 degrees the first
pass of the Vincenty loop produces cos-squared-alpha exactly 0, the
denominator of the c2sm update, whose numerator 2 sinU1 sinU2 is also 0;
the C code divides by it unguarded (IEEE: 0/0 = NaN). -/
theorem equator_c2a_zero :
    (vstep (Real.arctan (F1 * Real.tan equator90.lat1))
        (Real.arctan (F1 * Real.tan equator90.lat2))
        (equator90.lon2 - equator90.lon1) (equator90.lon2 - equator90.lon1)).c2a = 0 := by
  have h0 : equator90.lat1 = 0 := rfl
  have h1 : equator90.lat2 = 0 := rfl
  have h2 : equator90.lon2 - equator90.lon1 = Real.pi / 2 := by
    show Real.pi / 2 - 0 = Real.pi / 2
    ring
  rw [h0, h1, h2, arctan_F1_tan_zero]
  simp [vstep, Real.sin_zero, Real.cos_zero, Real.sin_pi_div_two, Real.cos_pi_div_two,
    Real.sqrt_one]

/-- Claim C3: on the non-antipodal equatorial segment from 0, 0 to 0, 90
degrees -- which does not trip the epsilon short-circuit -- the first loop
pass divides the zero numerator 2 sinU1 sinU2 by the zero denominator
cos-squared-alpha; in IEEE arithmetic the quotient is NaN, lambda becomes
NaN, the convergence test never holds and the do-while never terminates. -/
theorem equator_divzero_operands :
    Real.sin (Real.arctan (F1 * Real.tan equator90.lat1)) *
        Real.sin (Real.arctan (F1 * Real.tan equator90.lat2)) = 0 ∧
    (vstep (Real.arctan (F1 * Real.tan equator90.lat1))
        (Real.arctan (F1 * Real.tan equator90.lat2))
        (equator90.lon2 - equator90.lon1) (equator90.lon2 - equator90.lon1)).c2a = 0 ∧
    ¬(equalR equator90.lat1 equator90.lat2 ∧ equalR equator90.lon1 equator90.lon2) := by
  refine ⟨?_, ?_, ?_⟩
  · rw [show equator90.lat1 = 0 from rfl, arctan_F1_tan_zero, Real.sin_zero, zero_mul]
  · have h0 : equator90.lat1 = 0 := rfl
    have h1 : equator90.lat2 = 0 := rfl
    have h2 : equator90.lon2 - equator90.lon1 = Real.pi / 2 := by
      show Real.pi / 2 - 0 = Real.pi / 2
      ring
    rw [h0, h1, h2, arctan_F1_tan_zero]
    simp [vstep, Real.sin_zero, Real.cos_zero, Real.sin_pi_div_two, Real.cos_pi_div_two,
      Real.sqrt_one]
  · rintro ⟨-, h⟩
    have h' : |(0 : ℝ) - Real.pi / 2| ≤ EPSILON := h
    rw [zero_sub, abs_neg, abs_of_pos Real.pi_div_two_pos] at h'
    simp only [EPSILON] at h'
    linarith [Real.pi_gt_three]

/-! ### Symmetry of the two algorithms -/

lemma vstep_swap (U1 U2 L l : ℝ) :
    vstep U2 U1 (-L) (-l) =
      ⟨-(vstep U1 U2 L l).lnew, (vstep U1 U2 L l).ss, (vstep U1 U2 L l).cs,
       (vstep U1 U2 L l).s, (vstep U1 U2 L l).c2a, (vstep U1 U2 L l).c2sm⟩ := by
  simp only [vstep, Real.sin_neg, Real.cos_neg]
  have hrad :
      Real.cos U1 * -Real.sin l * (Real.cos U1 * -Real.sin l) +
        (Real.cos U2 * Real.sin U1 - Real.sin U2 * Real.cos U1 * Real.cos l) *
          (Real.cos U2 * Real.sin U1 - Real.sin U2 * Real.cos U1 * Real.cos l) =
      Real.cos U2 * Real.sin l * (Real.cos U2 * Real.sin l) +
        (Real.cos U1 * Real.sin U2 - Real.sin U1 * Real.cos U2 * Real.cos l) *
          (Real.cos U1 * Real.sin U2 - Real.sin U1 * Real.cos U2 * Real.cos l) := by
    linear_combination
      (Real.sin U2 ^ 2 * Real.cos U1 ^ 2 - Real.sin U1 ^ 2 * Real.cos U2 ^ 2) *
          Real.sin_sq_add_cos_sq l +
        Real.sin l ^ 2 * Real.cos U2 ^ 2 * Real.sin_sq_add_cos_sq U1 -
        Real.sin l ^ 2 * Real.cos U1 ^ 2 * Real.sin_sq_add_cos_sq U2
  rw [hrad]
  have hcs : Real.sin U2 * Real.sin U1 + Real.cos U2 * Real.cos U1 * Real.cos l =
      Real.sin U1 * Real.sin U2 + Real.cos U1 * Real.cos U2 * Real.cos l := by ring
  rw [hcs]
  simp only [VStep.mk.injEq]
  refine ⟨by ring, trivial, trivial, trivial, by ring, by ring⟩

lemma vloop_swap (U1 U2 L : ℝ) (fuel : Nat) : ∀ l : ℝ,
    vloop U2 U1 (-L) fuel (-l) =
      ⟨-(vloop U1 U2 L fuel l).lnew, (vloop U1 U2 L fuel l).ss, (vloop U1 U2 L fuel l).cs,
       (vloop U1 U2 L fuel l).s, (vloop U1 U2 L fuel l).c2a, (vloop U1 U2 L fuel l).c2sm⟩ := by
  induction fuel with
  | zero =>
    intro l
    simp only [vloop]
    exact vstep_swap U1 U2 L l
  | succ n ih =>
    intro l
    simp only [vloop]
    rw [vstep_swap]
    dsimp only
    have hc : equalR (-(vstep U1 U2 L l).lnew) (-l) = equalR (vstep U1 U2 L l).lnew l := by
      unfold equalR
      rw [show -(vstep U1 U2 L l).lnew - -l = -((vstep U1 U2 L l).lnew - l) by ring, abs_neg]
    simp only [hc]
    by_cases h : equalR (vstep U1 U2 L l).lnew l
    · rw [if_pos h, if_pos h]
    · rw [if_neg h, if_neg h]
      exact ih (vstep U1 U2 L l).lnew

/-- Claim C5: swapping the two input points changes neither the haversine
nor the Vincenty output, for any iteration budget of the solver. -/
theorem distance_symm (x1 y1 x2 y2 : ℝ) (fuel : Nat) :
    haversine ⟨x1, y1, x2, y2⟩ = haversine ⟨x2, y2, x1, y1⟩ ∧
    vincenty fuel ⟨x1, y1, x2, y2⟩ = vincenty fuel ⟨x2, y2, x1, y1⟩ := by
  constructor
  · unfold haversine
    dsimp only
    rw [show x2 + x1 = x1 + x2 by ring, show x1 - x2 = -(x2 - x1) by ring,
        show y1 - y2 = -(y2 - y1) by ring]
    simp only [neg_div, Real.sin_neg]
    congr 1
    congr 1
    congr 1
    ring
  · simp only [vincenty]
    have h1 : equalR x2 x1 = equalR x1 x2 := by unfold equalR; rw [abs_sub_comm]
    have h2 : equalR y2 y1 = equalR y1 y2 := by unfold equalR; rw [abs_sub_comm]
    simp only [h1, h2]
    by_cases h : equalR x1 x2 ∧ equalR y1 y2
    · rw [if_pos h, if_pos h]
    · rw [if_neg h, if_neg h]
      rw [show y1 - y2 = -(y2 - y1) by ring, vloop_swap]
      rfl

end GreatCircle
